import Mathlib

/-!
Verification of the ClipKIT Latch workflow wrapper (`wf/__init__.py`).

The repository's single source file defines:
  * `TrimmingMode`, an `Enum` of eight string values;
  * `trim_aln_task0`, a task that resolves an output path, defaults a falsy
    gap threshold to 0.9, builds the `clipkit` command line, runs it via
    `subprocess.run` without inspecting the result, and returns a
    `LatchFile` handle for the output path;
  * `clipkit`, a workflow wrapper that forwards its four parameters
    unchanged to the task.

The embedding below follows the source line by line.  Python floats are
modelled as a numeric value (a rational) paired with the decimal text that
Python's `str` would render for it; float falsiness is `value = 0`, as in
Python (`not 0.0` is true, any nonzero float is truthy).  `Path(name).resolve()`
for a plain relative filename is modelled as joining the current working
directory with the name.  The external process is an injected capability
`run : List String → CompletedProcess`, mirroring `subprocess.run`, whose
result the source discards.
-/

/-- A Python `float` argument: its numeric value together with the text that
`str(x)` renders.  The numeric value alone decides truthiness. -/
structure PyFloat where
  val : ℚ
  str : String
deriving DecidableEq

/-- Python truthiness of a `float`: `not x` is true exactly when `x == 0`. -/
def PyFloat.falsy (x : PyFloat) : Bool := x.val = 0

/-- The literal `0.9` of the source, with Python's rendering `str(0.9) = "0.9"`. -/
def pyFloat09 : PyFloat := ⟨9 / 10, "0.9"⟩

/-- Python truthiness of an `Optional[str]`: `None` and `""` are falsy. -/
def optStrFalsy : Option String → Bool
  | none => true
  | some s => s = ""

/-- `Path(name).resolve()` for a plain relative filename `name`: the name
joined onto the current working directory. -/
def pathResolve (cwd name : String) : String := cwd ++ "/" ++ name

/-- `latch.types.LatchFile`: a remote-file handle built from a local path and
a remote destination string.  The platform resolves `local_path` before the
task runs. -/
structure LatchFile where
  local_path : String
  remote_path : String
deriving DecidableEq

/-- The result of `subprocess.run`: exit status and output streams.  The
source never reads any of these fields. -/
structure CompletedProcess where
  returncode : Int
  stdout : String
  stderr : String
deriving DecidableEq

/-- `class TrimmingMode(Enum)`: the eight trimming modes of the source. -/
inductive TrimmingMode
  | gappy
  | smart_gap
  | kpi
  | kpi_gappy
  | kpi_smart_gap
  | kpic
  | kpic_gappy
  | kpic_smart_gap
deriving DecidableEq

/-- The `.value` string of each `TrimmingMode` member, as assigned in the
source's `Enum` body. -/
def TrimmingMode.value : TrimmingMode → String
  | .gappy => "gappy"
  | .smart_gap => "smart-gap"
  | .kpi => "kpi"
  | .kpi_gappy => "kpi-gappy"
  | .kpi_smart_gap => "kpi-smart-gap"
  | .kpic => "kpic"
  | .kpic_gappy => "kpic-gappy"
  | .kpic_smart_gap => "kpic-smart-gap"

/-- All eight members of the enumeration, in source order. -/
def TrimmingMode.members : List TrimmingMode :=
  [.gappy, .smart_gap, .kpi, .kpi_gappy, .kpi_smart_gap, .kpic, .kpic_gappy,
   .kpic_smart_gap]

/-- The output-path resolution of `trim_aln_task0`:
`if not output_file_name: trimmed_aln_fasta = Path("trimmed_aln.fna").resolve()
 else: trimmed_aln_fasta = output_file_name`. -/
def trimOutputPath (cwd : String) (output_file_name : Option String) : String :=
  if optStrFalsy output_file_name then pathResolve cwd "trimmed_aln.fna"
  else output_file_name.getD ""

/-- The threshold defaulting of `trim_aln_task0`:
`if not gap_threshold: gap_threshold = 0.9`. -/
def effGapThreshold (gap_threshold : PyFloat) : PyFloat :=
  if gap_threshold.falsy then pyFloat09 else gap_threshold

/-- The `_clipkit_cmd` list of `trim_aln_task0`, built from the already
resolved output path and already defaulted threshold. -/
def clipkitCmd (aln_fasta : LatchFile) (trimmed_aln_fasta : String)
    (trimming_mode : TrimmingMode) (gap_threshold : PyFloat) : List String :=
  ["clipkit", aln_fasta.local_path, "-o", trimmed_aln_fasta, "-m",
   trimming_mode.value, "-g", gap_threshold.str]

/-- The command line `trim_aln_task0` constructs from its raw arguments:
output-path resolution and threshold defaulting composed with `_clipkit_cmd`. -/
def trimAlnCmd (cwd : String) (aln_fasta : LatchFile)
    (output_file_name : Option String) (gap_threshold : PyFloat)
    (trimming_mode : TrimmingMode) : List String :=
  clipkitCmd aln_fasta (trimOutputPath cwd output_file_name) trimming_mode
    (effGapThreshold gap_threshold)

/-- `trim_aln_task0`: resolve the output path, default the threshold, build
`_clipkit_cmd`, run it (discarding the `CompletedProcess`), and return
`LatchFile(str(trimmed_aln_fasta), f"latch:///{trimmed_aln_fasta}")`. -/
def trim_aln_task0 (run : List String → CompletedProcess) (cwd : String)
    (aln_fasta : LatchFile) (output_file_name : Option String)
    (gap_threshold : PyFloat) (trimming_mode : TrimmingMode) : LatchFile :=
  let trimmed_aln_fasta : String := trimOutputPath cwd output_file_name
  let _ := run (trimAlnCmd cwd aln_fasta output_file_name gap_threshold
    trimming_mode)
  { local_path := trimmed_aln_fasta,
    remote_path := "latch:///" ++ trimmed_aln_fasta }

/-- `clipkit`: the workflow wrapper; forwards all four parameters unchanged
to `trim_aln_task0`.  Its declared defaults (recorded in `clipkitParams`
below, since the embedding passes them explicitly) are `None`, `0.9` and
`smart_gap`. -/
def clipkit (run : List String → CompletedProcess) (cwd : String)
    (aln_fasta : LatchFile) (output_file_name : Option String)
    (gap_threshold : PyFloat) (trimming_mode : TrimmingMode) : LatchFile :=
  trim_aln_task0 run cwd aln_fasta output_file_name gap_threshold trimming_mode

/-- The kind of each workflow parameter, as annotated in the source. -/
inductive ParamType
  | remoteFile
  | optionalString
  | float
  | trimmingModeEnum
deriving DecidableEq

/-- A workflow parameter: name, type annotation, whether it is required, and
the rendered declared default when it has one. -/
structure ParamSpec where
  name : String
  type : ParamType
  required : Bool
  defaultValue : Option String
deriving DecidableEq

/-- The declared parameter surface of the `clipkit` workflow, read off the
source signature; defaults rendered through the embedding's own values. -/
def clipkitParams : List ParamSpec :=
  [⟨"aln_fasta", .remoteFile, true, none⟩,
   ⟨"output_file_name", .optionalString, false, none⟩,
   ⟨"gap_threshold", .float, false, some pyFloat09.str⟩,
   ⟨"trimming_mode", .trimmingModeEnum, false, some TrimmingMode.smart_gap.value⟩]

/-- C1: for every invocation, the constructed command-line argument list is
exactly the eight-element sequence `["clipkit", <input local path>, "-o",
<output path>, "-m", <mode string>, "-g", <threshold string>]`, in that
order. -/
theorem cmd_is_eight_arg_clipkit_invocation (cwd : String)
    (aln_fasta : LatchFile) (output_file_name : Option String)
    (gap_threshold : PyFloat) (trimming_mode : TrimmingMode) :
    trimAlnCmd cwd aln_fasta output_file_name gap_threshold trimming_mode =
      ["clipkit", aln_fasta.local_path, "-o",
       trimOutputPath cwd output_file_name, "-m", trimming_mode.value, "-g",
       (effGapThreshold gap_threshold).str] ∧
    (trimAlnCmd cwd aln_fasta output_file_name gap_threshold
      trimming_mode).length = 8 :=
  ⟨rfl, rfl⟩

/-- C2: `TrimmingMode` is a closed enumeration of exactly the eight values
gappy, smart-gap, kpi, kpi-gappy, kpi-smart-gap, kpic, kpic-gappy,
kpic-smart-gap, and for each member the value after the `-m` flag of the
constructed command is that member's string value. -/
theorem trimmingMode_closed_and_passed_to_m_flag (m : TrimmingMode)
    (cwd : String) (aln_fasta : LatchFile) (output_file_name : Option String)
    (gap_threshold : PyFloat) :
    m ∈ TrimmingMode.members ∧
    TrimmingMode.members.map TrimmingMode.value =
      ["gappy", "smart-gap", "kpi", "kpi-gappy", "kpi-smart-gap", "kpic",
       "kpic-gappy", "kpic-smart-gap"] ∧
    (trimAlnCmd cwd aln_fasta output_file_name gap_threshold m).get? 5 =
      some m.value := by
  refine ⟨?_, rfl, rfl⟩
  cases m <;> simp [TrimmingMode.members]

/-- C3: a falsy (zero) gap threshold is replaced by 0.9, so the value after
the `-g` flag is "0.9" when the supplied threshold's value is zero and the
supplied threshold's rendering otherwise; in particular an explicit zero
threshold yields the same command as an explicit 0.9. -/
theorem gap_threshold_defaulting (cwd : String) (aln_fasta : LatchFile)
    (output_file_name : Option String) (gap_threshold : PyFloat)
    (m : TrimmingMode) (s : String) :
    effGapThreshold gap_threshold =
      (if gap_threshold.val = 0 then pyFloat09 else gap_threshold) ∧
    (trimAlnCmd cwd aln_fasta output_file_name gap_threshold m).get? 7 =
      some (if gap_threshold.val = 0 then "0.9" else gap_threshold.str) ∧
    trimAlnCmd cwd aln_fasta output_file_name ⟨0, s⟩ m =
      trimAlnCmd cwd aln_fasta output_file_name pyFloat09 m := by
  have h09 : effGapThreshold pyFloat09 = pyFloat09 := by
    simp [effGapThreshold, PyFloat.falsy, pyFloat09]
  have h0 : effGapThreshold ⟨0, s⟩ = pyFloat09 := by
    simp [effGapThreshold, PyFloat.falsy]
  refine ⟨?_, ?_, ?_⟩
  · by_cases h : gap_threshold.val = 0 <;>
      simp [effGapThreshold, PyFloat.falsy, h]
  · by_cases h : gap_threshold.val = 0 <;>
      simp [trimAlnCmd, clipkitCmd, effGapThreshold, PyFloat.falsy, h,
        pyFloat09]
  · simp [trimAlnCmd, h0, h09]

/-- C4: an absent output name yields the fixed filename `trimmed_aln.fna`
resolved against the current directory, and a non-empty supplied name is
used verbatim. -/
theorem output_path_resolution (cwd s : String) (h : s ≠ "") :
    trimOutputPath cwd none = pathResolve cwd "trimmed_aln.fna" ∧
    trimOutputPath cwd none = cwd ++ "/trimmed_aln.fna" ∧
    trimOutputPath cwd (some s) = s := by
  refine ⟨rfl, ?_, ?_⟩
  · show (cwd ++ "/") ++ "trimmed_aln.fna" = cwd ++ "/trimmed_aln.fna"
    rw [String.append_assoc]
    rfl
  · simp [trimOutputPath, optStrFalsy, h]

/-- Witness for C4 at a concrete directory and name. -/
theorem output_path_resolution_witness :
    trimOutputPath "/root" none = pathResolve "/root" "trimmed_aln.fna" ∧
    trimOutputPath "/root" none = "/root" ++ "/trimmed_aln.fna" ∧
    trimOutputPath "/root" (some "out.fna") = "out.fna" :=
  output_path_resolution "/root" "out.fna" (by decide)

/-- C5: the returned handle's local path is the resolved output path and its
remote destination is `latch:///` followed by that same path. -/
theorem returned_handle_paths (run : List String → CompletedProcess)
    (cwd : String) (aln_fasta : LatchFile) (output_file_name : Option String)
    (gap_threshold : PyFloat) (trimming_mode : TrimmingMode) :
    (trim_aln_task0 run cwd aln_fasta output_file_name gap_threshold
      trimming_mode).local_path = trimOutputPath cwd output_file_name ∧
    (trim_aln_task0 run cwd aln_fasta output_file_name gap_threshold
      trimming_mode).remote_path =
      "latch:///" ++ trimOutputPath cwd output_file_name :=
  ⟨rfl, rfl⟩

/-- C6: the task's result does not depend on the external process's outcome
(exit status and streams are never inspected), and for every outcome the
task returns the handle for the expected output path. -/
theorem task_ignores_subprocess_outcome
    (run₁ run₂ : List String → CompletedProcess) (cwd : String)
    (aln_fasta : LatchFile) (output_file_name : Option String)
    (gap_threshold : PyFloat) (trimming_mode : TrimmingMode) :
    trim_aln_task0 run₁ cwd aln_fasta output_file_name gap_threshold
        trimming_mode =
      trim_aln_task0 run₂ cwd aln_fasta output_file_name gap_threshold
        trimming_mode ∧
    trim_aln_task0 run₁ cwd aln_fasta output_file_name gap_threshold
        trimming_mode =
      { local_path := trimOutputPath cwd output_file_name,
        remote_path := "latch:///" ++ trimOutputPath cwd output_file_name } :=
  ⟨rfl, rfl⟩

/-- C7: the workflow wrapper returns exactly the task applied to the same
four arguments unchanged. -/
theorem workflow_forwards_to_task (run : List String → CompletedProcess)
    (cwd : String) (aln_fasta : LatchFile) (output_file_name : Option String)
    (gap_threshold : PyFloat) (trimming_mode : TrimmingMode) :
    clipkit run cwd aln_fasta output_file_name gap_threshold trimming_mode =
      trim_aln_task0 run cwd aln_fasta output_file_name gap_threshold
        trimming_mode :=
  rfl

/-- C8: the workflow's parameter surface is exactly aln_fasta (required
remote file), output_file_name (optional string, no default value),
gap_threshold (float, declared default 0.9) and trimming_mode (enumeration,
declared default smart-gap). -/
theorem workflow_parameter_surface :
    clipkitParams =
      [⟨"aln_fasta", ParamType.remoteFile, true, none⟩,
       ⟨"output_file_name", ParamType.optionalString, false, none⟩,
       ⟨"gap_threshold", ParamType.float, false, some "0.9"⟩,
       ⟨"trimming_mode", ParamType.trimmingModeEnum, false,
        some "smart-gap"⟩] ∧
    pyFloat09.val = 9 / 10 ∧
    TrimmingMode.smart_gap.value = "smart-gap" :=
  ⟨rfl, rfl, rfl⟩

/-- C9: an empty-string output name is treated like an omitted one, so the
output path is the resolved default and the whole task behaves as with no
name supplied. -/
theorem empty_output_name_defaults (run : List String → CompletedProcess)
    (cwd : String) (aln_fasta : LatchFile) (gap_threshold : PyFloat)
    (trimming_mode : TrimmingMode) :
    trimOutputPath cwd (some "") = pathResolve cwd "trimmed_aln.fna" ∧
    trim_aln_task0 run cwd aln_fasta (some "") gap_threshold trimming_mode =
      trim_aln_task0 run cwd aln_fasta none gap_threshold trimming_mode :=
  ⟨rfl, rfl⟩

/-- C10: no range validation of the gap threshold: every nonzero threshold
value, negative or above one included, is rendered after the `-g` flag
unchanged, and the task still returns the expected handle. -/
theorem no_threshold_range_validation (run : List String → CompletedProcess)
    (cwd : String) (aln_fasta : LatchFile) (output_file_name : Option String)
    (gap_threshold : PyFloat) (m : TrimmingMode)
    (h : gap_threshold.val ≠ 0) :
    (trimAlnCmd cwd aln_fasta output_file_name gap_threshold m).get? 7 =
      some gap_threshold.str ∧
    trim_aln_task0 run cwd aln_fasta output_file_name gap_threshold m =
      { local_path := trimOutputPath cwd output_file_name,
        remote_path := "latch:///" ++ trimOutputPath cwd output_file_name } := by
  constructor
  · simp [trimAlnCmd, clipkitCmd, effGapThreshold, PyFloat.falsy, h]
  · rfl

/-- Witness for C10 at a negative threshold value of -1.5. -/
theorem no_threshold_range_validation_witness :
    (trimAlnCmd "/root" ⟨"/root/in.fna", "latch:///in.fna"⟩ none
      ⟨-(3 / 2), "-1.5"⟩ TrimmingMode.gappy).get? 7 = some "-1.5" ∧
    trim_aln_task0 (fun _ => ⟨1, "", ""⟩) "/root"
        ⟨"/root/in.fna", "latch:///in.fna"⟩ none ⟨-(3 / 2), "-1.5"⟩
        TrimmingMode.gappy =
      { local_path := trimOutputPath "/root" none,
        remote_path := "latch:///" ++ trimOutputPath "/root" none } :=
  no_threshold_range_validation (fun _ => ⟨1, "", ""⟩) "/root"
    ⟨"/root/in.fna", "latch:///in.fna"⟩ none ⟨-(3 / 2), "-1.5"⟩
    TrimmingMode.gappy (by norm_num)
